import Mathlib

/-!
Verification of the depth-extraction pipeline of the
LilFloAssessmentPipeline repository, a shallow embedding of
`src/pose/src/extract_depth.py`.

Modelling conventions:
* numpy float arithmetic is modelled over `ℚ` (exact arithmetic); `np.nan`
  appears only in the outputs of the per-frame extractor and the driver and
  is modelled by `Option ℚ` (`none` = NaN).  Division in `ℚ` yields `0` at a
  zero denominator where numpy would yield `inf`/`nan` with a warning; no
  theorem below depends on the value produced at a zero denominator.
* images (`numpy` 2-D arrays) are lists of rows (`List (List ℚ)`);
  `numpy` slicing `a[s:e]` becomes `(List.drop s) ∘ (List.take e)` which has
  the same clipping behaviour for natural bounds.
* `astype('uint16')` and uint16 scalar arithmetic wrap modulo 2^16, the
  behaviour of numpy value-based casting for `uint16` scalars combined with
  small Python ints.
* `np.round` rounds half to even (numpy semantics), modelled by
  `roundHalfEven`.
* an uncaught Python exception is modelled by `Option.none` in the result
  of the function that raises.
* the configuration constants imported from `common.realsense_params` and
  `common.tracking_params` (files not part of the sources considered here)
  are carried as an explicit `DepthConfig` parameter.
-/

/-- Values of a 3-vector / a column of a numpy 3×N array: `(x, y, z)`. -/
abbrev V3 : Type := ℚ × ℚ × ℚ

/-- A 3×3 matrix. -/
abbrev M3 : Type := Fin 3 → Fin 3 → ℚ

/-- A 3×4 matrix. -/
abbrev M34 : Type := Fin 3 → Fin 4 → ℚ

/-- A 4×4 matrix. -/
abbrev M4 : Type := Fin 4 → Fin 4 → ℚ

/-- An image: a list of rows of rational pixel values. -/
abbrev Img : Type := List (List ℚ)

/-- `img[r, c]` with value `0` outside the stored rows/columns (all source
accesses are in bounds; the default is never observed by the theorems). -/
def getPix (img : Img) (r c : ℕ) : ℚ :=
  (img.getD r []).getD c 0

/-- numpy `shape[0]` of an image. -/
def imgRows (img : Img) : ℕ := img.length

/-- numpy `shape[1]` of an image (row length; hdf5 arrays are rectangular). -/
def imgCols (img : Img) : ℕ := (img.headD []).length

/-- The all-zero image of `h` rows and `w` columns (`np.zeros((h, w))`). -/
def zeroImg (h w : ℕ) : Img :=
  List.replicate h (List.replicate w 0)

/-- Write value `z` at row `r`, column `c` (numpy `img[r, c] = z`). -/
def setPix (img : Img) (r c : ℕ) (z : ℚ) : Img :=
  img.set r ((img.getD r []).set c z)

/-- `np.round` for a single value: round half to even. -/
def roundHalfEven (q : ℚ) : ℤ :=
  let f : ℤ := ⌊q⌋
  let r : ℚ := q - f
  if r < 1/2 then f
  else if 1/2 < r then f + 1
  else if f % 2 = 0 then f else f + 1

/-- `astype('uint16')` of an integral value: wrap modulo 2^16. -/
def castU16 (z : ℤ) : ℕ :=
  (z % 65536).toNat

/-- Matrix–vector product `A @ v` for a 3×3 matrix. -/
def mulVec3 (a : M3) (v : V3) : V3 :=
  (a 0 0 * v.1 + a 0 1 * v.2.1 + a 0 2 * v.2.2,
   a 1 0 * v.1 + a 1 1 * v.2.1 + a 1 2 * v.2.2,
   a 2 0 * v.1 + a 2 1 * v.2.1 + a 2 2 * v.2.2)

/-- Scalar multiple of a 3-vector. -/
def smul3 (c : ℚ) (v : V3) : V3 :=
  (c * v.1, c * v.2.1, c * v.2.2)

/-- `A @ [v; 1]` for a 3×4 matrix `A`: apply to the homogenised vector. -/
def mulVecH (a : M34) (v : V3) : V3 :=
  (a 0 0 * v.1 + a 0 1 * v.2.1 + a 0 2 * v.2.2 + a 0 3,
   a 1 0 * v.1 + a 1 1 * v.2.1 + a 1 2 * v.2.2 + a 1 3,
   a 2 0 * v.1 + a 2 1 * v.2.1 + a 2 2 * v.2.2 + a 2 3)

/-- `(H @ [v; 1])[:3]` for a 4×4 matrix `H`. -/
def applyH4 (h : M4) (v : V3) : V3 :=
  (h 0 0 * v.1 + h 0 1 * v.2.1 + h 0 2 * v.2.2 + h 0 3,
   h 1 0 * v.1 + h 1 1 * v.2.1 + h 1 2 * v.2.2 + h 1 3,
   h 2 0 * v.1 + h 2 1 * v.2.1 + h 2 2 * v.2.2 + h 2 3)

/-- Product of a 3×4 and a 4×4 matrix. -/
def mul34 (a : M34) (b : M4) : M34 := fun i j =>
  a i 0 * b 0 j + a i 1 * b 1 j + a i 2 * b 2 j + a i 3 * b 3 j

/-- Transpose of a 3×3 matrix (numpy `.T`). -/
def transpose3 (a : M3) : M3 := fun i j => a j i

/-- Determinant of a 3×3 matrix, written out. -/
def det3 (a : M3) : ℚ :=
  a 0 0 * (a 1 1 * a 2 2 - a 1 2 * a 2 1)
    - a 0 1 * (a 1 0 * a 2 2 - a 1 2 * a 2 0)
    + a 0 2 * (a 1 0 * a 2 1 - a 1 1 * a 2 0)

/-- `np.linalg.inv` on a 3×3 matrix: the exact inverse, written via the
adjugate.  (numpy computes the same matrix, up to floating-point error.) -/
def inv3 (a : M3) : M3 :=
  let d := det3 a
  ![![(a 1 1 * a 2 2 - a 1 2 * a 2 1) / d,
     -(a 0 1 * a 2 2 - a 0 2 * a 2 1) / d,
      (a 0 1 * a 1 2 - a 0 2 * a 1 1) / d],
    ![-(a 1 0 * a 2 2 - a 1 2 * a 2 0) / d,
      (a 0 0 * a 2 2 - a 0 2 * a 2 0) / d,
     -(a 0 0 * a 1 2 - a 0 2 * a 1 0) / d],
    ![(a 1 0 * a 2 1 - a 1 1 * a 2 0) / d,
     -(a 0 0 * a 2 1 - a 0 1 * a 2 0) / d,
      (a 0 0 * a 1 1 - a 0 1 * a 1 0) / d]]

/-- The configuration constants the module reads from
`common.realsense_params` / `common.tracking_params` (modules outside the
sources at hand); the module asserts `DEPTH_KERNEL_SIZE % 2 == 1` at import
time.  All values are carried explicitly. -/
structure DepthConfig where
  minValidDepthMM : ℚ
  maxValidDepthMM : ℚ
  maxTimeDisparity : ℚ
  depthKernelSize : ℕ

/-- The dictionary returned by `build_tranformations`. -/
structure TransformMats where
  h_matrix : M4
  k_c_padded : M34
  color_cam_matrix : M34
  k_d_inv : M3
  k_c_inv : M3
  h_matrix_inv : M4
  k_d : M3
  k_c : M3

/-- `build_tranformations(r_cd, t_cd, k_d, k_c)` (source lines 274–304).

`h_matrix` is `np.eye(4)` with `[:3, :3] = r_cd.T` and `[:3, 3] = t_cd`;
`h_matrix_inv` is a copy of `h_matrix` whose rotation block is
`np.linalg.inv(h_matrix[:3, :3]) = inv3 (transpose3 r_cd)` and whose
translation column is `-h_matrix_inv[:3, :3] @ h_matrix[:3, 3]`. -/
def build_tranformations (r_cd : M3) (t_cd : V3) (k_d k_c : M3) :
    TransformMats :=
  let h_matrix : M4 :=
    ![![r_cd 0 0, r_cd 1 0, r_cd 2 0, t_cd.1],
      ![r_cd 0 1, r_cd 1 1, r_cd 2 1, t_cd.2.1],
      ![r_cd 0 2, r_cd 1 2, r_cd 2 2, t_cd.2.2],
      ![0, 0, 0, 1]]
  let k_c_padded : M34 := fun i j =>
    if h : (j : ℕ) < 3 then k_c i ⟨j, h⟩ else 0
  let color_cam_matrix := mul34 k_c_padded h_matrix
  let k_d_inv := inv3 k_d
  let k_c_inv := inv3 k_c
  let ri := inv3 (transpose3 r_cd)
  let ti := mulVec3 ri t_cd
  let h_matrix_inv : M4 :=
    ![![ri 0 0, ri 0 1, ri 0 2, -ti.1],
      ![ri 1 0, ri 1 1, ri 1 2, -ti.2.1],
      ![ri 2 0, ri 2 1, ri 2 2, -ti.2.2],
      ![0, 0, 0, 1]]
  { h_matrix := h_matrix
    k_c_padded := k_c_padded
    color_cam_matrix := color_cam_matrix
    k_d_inv := k_d_inv
    k_c_inv := k_c_inv
    h_matrix_inv := h_matrix_inv
    k_d := k_d
    k_c := k_c }

example : castU16 (-1) = 65535 := by decide

example : roundHalfEven (5/2) = 2 := by norm_num [roundHalfEven]

example : roundHalfEven (7/2) = 4 := by norm_num [roundHalfEven]

example : roundHalfEven (-1/2) = 0 := by norm_num [roundHalfEven]

example :
    mulVec3 (inv3 ![![2, 0, 0], ![0, 1, 0], ![0, 0, 1]]) (2, 3, 4)
      = (1, 3, 4) := by
  norm_num [mulVec3, inv3, det3, Matrix.vecHead, Matrix.vecTail]

/-- `generate_image_h_indices(depth_img_shape)` (source lines 24–32) for a
shape `(h, w)` (rows, columns).

`np.indices(np.flip((h, w))) = np.indices((w, h))` has entry
`[c][a][b] = a` for `c = 0` and `b` for `c = 1`; after `reshape((2, -1))`
(C order) column `p` is `(p / h, p % h)`, and a row of ones is appended.
Column `p` of the result, as an `(x, y, 1)` triple: -/
def generate_image_h_indices (h w : ℕ) : List V3 :=
  (List.range (w * h)).map fun p => (((p / h : ℕ) : ℚ), ((p % h : ℕ) : ℚ), 1)

/-- Position `p` of `np.reshape(img, (1, -1), order='F')` for an image with
`img.length` rows: Fortran order runs down each column first. -/
def flattenF (img : Img) (p : ℕ) : ℚ :=
  getPix img (p % imgRows img) (p / imgRows img)

/-- `de_project_depth(points, k_inv, img)` (source lines 35–47):
`(k_inv @ points) * np.reshape(img, (1, -1), order='F')` — column `p` of
`k_inv @ points` scaled by entry `p` of the flattened image. -/
def de_project_depth (points : List V3) (k_inv : M3) (img : Img) : List V3 :=
  (List.range points.length).map fun p =>
    smul3 (flattenF img p) (mulVec3 k_inv (points.getD p (0, 0, 0)))

/-- `transform_depth_world2color_pixels(color_cam_matrix, world_d)`
(source lines 49–59): `color_cam_matrix @ [world_d; 1]` columnwise. -/
def transform_depth_world2color_pixels (color_cam_matrix : M34)
    (world_d : List V3) : List V3 :=
  world_d.map fun wpt => mulVecH color_cam_matrix wpt

/-- `project_depth_to_colorframe(px_color, color_img_shape)`
(source lines 62–87).  `px_color` is the list of columns `(x, y, z)`;
`shape = (rows, cols)` of the target image.

* `valid_px_color = px_color[2, :] != 0`; the fancy index
  `px_color[:, valid_px_color]` keeps the columns with nonzero `z`;
* `points = np.round((kept / kept[2])[:2].T).astype('uint16')`;
* `valid` keeps `0 < u`, `0 < v`, `u < shape.2`, `v < shape.1`;
* the assignment `mapped[points[valid, 1], points[valid, 0]] =
  px_color[2, valid]` indexes the *unfiltered* `px_color` with the
  boolean mask `valid`, whose length is the number of nonzero-`z` columns:
  when some `z` is zero the lengths differ and numpy raises `IndexError`
  (modelled by `none`); repeated target pixels take the last value
  written. -/
def project_depth_to_colorframe (px_color : List V3) (shape : ℕ × ℕ) :
    Option Img :=
  let filtered := px_color.filter fun p => decide (p.2.2 ≠ 0)
  let points := filtered.map fun p =>
    (castU16 (roundHalfEven (p.1 / p.2.2)), castU16 (roundHalfEven (p.2.1 / p.2.2)))
  let valid := points.map fun q =>
    decide (0 < q.1) && decide (0 < q.2) &&
      decide (q.1 < shape.2) && decide (q.2 < shape.1)
  let zs := px_color.map fun p => p.2.2
  if valid.length = zs.length then
    let coords := ((points.zip valid).filter fun pb => pb.2).map fun pb => pb.1
    let vals := ((zs.zip valid).filter fun zb => zb.2).map fun zb => zb.1
    some ((coords.zip vals).foldl
      (fun im cv => setPix im cv.1.2 cv.1.1 cv.2) (zeroImg shape.1 shape.2))
  else none

/-- Minimum of a list (`min(...)` in Python); `0` is never used: the source
only calls this on a nonempty list. -/
def listMin : List ℚ → ℚ
  | [] => 0
  | v :: rest => rest.foldl min v

/-- uint16 subtraction of a small Python int from a uint16 scalar
(`pose - window`): numpy value-based casting performs the operation in
uint16, wrapping modulo 2^16. -/
def subU16 (a : ℕ) (b : ℕ) : ℕ := castU16 ((a : ℤ) - (b : ℤ))

/-- uint16 addition (`pose + window`), wrapping modulo 2^16. -/
def addU16 (a : ℕ) (b : ℕ) : ℕ := castU16 ((a : ℤ) + (b : ℤ))

/-- The window extraction and reduction for one pose inside
`calc_depth_from_sparse_image`: the slice
`img[max(0, y-window) : min(y+window, shape0),
     max(x-window, 0) : min(x+window, shape1)]`,
flattened, zeros dropped, minimum of the remainder (or `0` when nothing
remains).  `x`, `y` are the rounded pose coordinates as uint16. -/
def windowDepth (img : Img) (x y window : ℕ) : ℚ :=
  let rowLo := max 0 (subU16 y window)
  let rowHi := min (addU16 y window) (imgRows img)
  let colLo := max (subU16 x window) 0
  let colHi := min (addU16 x window) (imgCols img)
  let block := ((img.take rowHi).drop rowLo).map fun row =>
    (row.take colHi).drop colLo
  let vals := block.flatten.filter fun v => decide (v ≠ 0)
  if vals.length > 0 then listMin vals else 0

/-- `calc_depth_from_sparse_image(mapped_depth_img, poses, window)`
(source lines 90–123): for each pose, rounded and cast to uint16, take the
window around it, drop zeros, and keep the minimum (or `0`). -/
def calc_depth_from_sparse_image (mapped_depth_img : Img)
    (poses : List (ℚ × ℚ)) (window : ℕ) : List ℚ :=
  poses.map fun pose =>
    windowDepth mapped_depth_img
      (castU16 (roundHalfEven pose.1)) (castU16 (roundHalfEven pose.2)) window

/-- `deproject_colordepth(k_inv, poses, depths)` (source lines 126–139):
`(k_inv @ [poses; 1].T) * depths` — column `j` is scaled by `depths[j]`. -/
def deproject_colordepth (k_inv : M3) (poses : List (ℚ × ℚ))
    (depths : List ℚ) : List V3 :=
  List.zipWith (fun pose d => smul3 d (mulVec3 k_inv (pose.1, pose.2, 1)))
    poses depths

/-- `project_keypoints2depth(k_d, h_matrix_inv, poses_3d_c)`
(source lines 142–156): `k_d @ (h_matrix_inv @ [poses; 1])[:3]`, then
normalise by the third row and keep the first two.  (In `ℚ`, division by a
zero third component yields `0` where numpy would give `inf`/`nan`.) -/
def project_keypoints2depth (k_d : M3) (h_matrix_inv : M4)
    (poses_3d_c : List V3) : List (ℚ × ℚ) :=
  poses_3d_c.map fun p =>
    let q := mulVec3 k_d (applyH4 h_matrix_inv p)
    (q.1 / q.2.2, q.2.1 / q.2.2)

/-- `extract_depth(poses, depth_img, color_img_shape, transform_mats,
window, mapped_depth_img)` (source lines 159–203).

When `mapped_depth_img is None` the window is first halved
(`window = int((window-1)/2)`) and the dense map is built from the depth
image; note that the halving happens *only* on this branch.  A `None`
`depth_img` together with a `None` `mapped_depth_img` would raise
(`depth_img.shape` on `None`), and a raised `IndexError` from
`project_depth_to_colorframe` propagates: both are modelled by `none`. -/
def extract_depth (poses : List (ℚ × ℚ)) (depth_img : Option Img)
    (color_img_shape : ℕ × ℕ) (transform_mats : TransformMats)
    (window : ℕ) (mapped_depth_img : Option Img) :
    Option (List V3 × List (ℚ × ℚ) × Img) :=
  let prepared : Option (Img × ℕ) :=
    match mapped_depth_img with
    | some m => some (m, window)
    | none =>
      match depth_img with
      | none => none
      | some img =>
        let window := (window - 1) / 2
        let indices_h := generate_image_h_indices (imgRows img) (imgCols img)
        let world_d := de_project_depth indices_h transform_mats.k_d_inv img
        let px_color := transform_depth_world2color_pixels
          transform_mats.color_cam_matrix world_d
        match project_depth_to_colorframe px_color color_img_shape with
        | none => none
        | some m => some (m, window)
  match prepared with
  | none => none
  | some (mapped, window) =>
    let depths := calc_depth_from_sparse_image mapped poses window
    let poses_3d_c := deproject_colordepth transform_mats.k_c_inv poses depths
    let poses_in_depth := project_keypoints2depth transform_mats.k_d
      transform_mats.h_matrix_inv poses_3d_c
    some (poses_3d_c, poses_in_depth, mapped)

/-- The two masked assignments
`depth_img[depth_img < MIN_VALID_DEPTH_MM] = 0` and
`depth_img[depth_img > MAX_VALID_DEPTH_MM] = 0`
(source lines 255–256), applied in that order. -/
def clamp_depth (cfg : DepthConfig) (img : Img) : Img :=
  (img.map fun row => row.map fun v =>
    if v < cfg.minValidDepthMM then 0 else v).map fun row => row.map fun v =>
      if v > cfg.maxValidDepthMM then 0 else v

/-- `invalid_indeces` (source lines 260–263) for one keypoint: the
recovered 3-D `z` lies strictly outside the valid depth range. -/
def invalidKeypoint (cfg : DepthConfig) (p : V3) : Bool :=
  decide (p.2.2 < cfg.minValidDepthMM) || decide (p.2.2 > cfg.maxValidDepthMM)

/-- `poses_3d_c[:, invalid_indeces] = np.nan` (source line 264): each
invalid column becomes NaN in all three coordinates. -/
def mask_poses3d (cfg : DepthConfig) (poses_3d_c : List V3) :
    List (Option ℚ × Option ℚ × Option ℚ) :=
  poses_3d_c.map fun p =>
    if invalidKeypoint cfg p then (none, none, none)
    else (some p.1, some p.2.1, some p.2.2)

/-- `poses_in_depth[invalid_indeces, :] = np.nan` (source line 265): the
mask is computed from `poses_3d_c` and applied to the matching rows. -/
def mask_poses_in_depth (cfg : DepthConfig) (poses_3d_c : List V3)
    (poses_in_depth : List (ℚ × ℚ)) : List (Option ℚ × Option ℚ) :=
  List.zipWith
    (fun p q =>
      if invalidKeypoint cfg p then (none, none) else (some q.1, some q.2))
    poses_3d_c poses_in_depth

/-- The value returned by `extract_depth_wrap`:
* `fastReject idx` models `return (idx, np.NaN, np.NaN, np.NaN)` (source
  line 251) — the three payloads are *scalar* NaN, not arrays;
* `ok idx poses_3d_c poses_in_depth depth_in_color` models the returns at
  source lines 270–271, with `poses_3d_c.T` as a list of `(x, y, z)`
  rows, `poses_in_depth` as a list of `(u, v)` rows, and the fourth
  component `None` when the caller supplied a depth-in-color map. -/
inductive ExtractResult where
  | fastReject (idx : ℕ)
  | ok (idx : ℕ) (poses_3d_c : List (Option ℚ × Option ℚ × Option ℚ))
      (poses_in_depth : List (Option ℚ × Option ℚ)) (depth_in_color : Option Img)
deriving DecidableEq

/-- `extract_depth_wrap(color_img_shape, transform_mats, depth_img,
keypoints, depth_time, color_time, depth_in_color, idx)`
(source lines 217–271).

The result's first component models the returned tuple (`none` = an
uncaught exception propagated out of `extract_depth`); the second models
the contents of the caller's `depth_img` array after the call returns —
the clamping at lines 254–256 mutates the argument in place, so the
caller observes the clamped image on the normal path and the untouched
image on the fast-reject path. -/
def extract_depth_wrap (cfg : DepthConfig) (color_img_shape : ℕ × ℕ)
    (transform_mats : TransformMats) (depth_img : Option Img)
    (keypoints : List (ℚ × ℚ)) (depth_time color_time : ℚ)
    (depth_in_color : Option Img) (idx : ℕ) :
    Option ExtractResult × Option Img :=
  if |depth_time - color_time| > cfg.maxTimeDisparity then
    (some (ExtractResult.fastReject idx), depth_img)
  else
    let depth_img := depth_img.map (clamp_depth cfg)
    match extract_depth keypoints depth_img color_img_shape transform_mats
        cfg.depthKernelSize depth_in_color with
    | none => (none, depth_img)
    | some (poses_3d_c, poses_in_depth, depth_in_color) =>
      let m3 := mask_poses3d cfg poses_3d_c
      let md := mask_poses_in_depth cfg poses_3d_c poses_in_depth
      if depth_img = none then
        (some (ExtractResult.ok idx m3 md none), depth_img)
      else
        (some (ExtractResult.ok idx m3 md (some depth_in_color)), depth_img)

/-- An image of NaN-able values, as stored in the float32 output datasets
(`none` = NaN). -/
abbrev OImg : Type := List (List (Option ℚ))

/-- One frame's 3-D keypoint rows in the output store. -/
abbrev Out3Frame : Type := List (Option ℚ × Option ℚ × Option ℚ)

/-- One frame's depth-frame keypoint rows in the output store. -/
abbrev OutDFrame : Type := List (Option ℚ × Option ℚ)

/-- The slices of the two hdf5 stores that `add_stereo_depth`
(source lines 482–597) reads, plus the calibration it resolves via
`get_extinsics` / `get_intrinsics`.  Dataset absence is `none`.

`keypoints` carries `hdf5_out[f'{pose_dset_root}/color'][:, :, :2]` (the
confidence column is dropped by the driver); `numKeypoints` is that
dataset's second dimension (25 for the body model). -/
structure DriverIn where
  matched_depth_index : Option (List ℕ)
  depth_data : List Img
  depth_time : List ℚ
  color_time : List ℚ
  numColorFrames : ℕ
  color_img_shape : ℕ × ℕ
  keypoints : List (List (ℚ × ℚ))
  numKeypoints : ℕ
  r_cd : M3
  t_cd : V3
  k_d : M3
  k_c : M3
  out_keypoints3d : Option (List Out3Frame)
  out_keypoints_depth : Option (List OutDFrame)
  dense_map : Option (List OImg)
  dense_complete : Bool

/-- The final state `add_stereo_depth` leaves behind: the two keypoint
output datasets, the dense depth-in-color dataset and its `complete`
attribute, and how many times the per-frame extractor ran (one per
`extract_depth_wrap` call, whether through `map` or the worker pool). -/
structure DriverOut where
  keypoints3d : List Out3Frame
  keypoints_depth : List OutDFrame
  dense_map : List OImg
  dense_complete : Bool
  extractorCalls : ℕ
deriving DecidableEq

/-- A frame of all-NaN 3-D keypoints (`keypoints3d_dset[idx] = np.NaN`). -/
def nan3Frame (n : ℕ) : Out3Frame :=
  List.replicate n (none, none, none)

/-- A frame of all-NaN depth-frame keypoints. -/
def nanDFrame (n : ℕ) : OutDFrame :=
  List.replicate n (none, none)

/-- A stored image written entirely with NaN. -/
def nanOImg (img : OImg) : OImg :=
  img.map fun row => row.map fun _ => none

/-- Store a rational image into a float dataset slot. -/
def storeImg (img : Img) : OImg :=
  img.map fun row => row.map fun v => some v

/-- Read a stored dense map back as an image (the driver only reads maps
that were previously produced by `extract_depth`, which are NaN-free, so
the `0` default for a NaN cell is never observed by the theorems). -/
def loadImg (img : OImg) : Img :=
  img.map fun row => row.map fun v => v.getD 0

/-- The per-frame body of the driver's chunk loop (source lines 556–596):
resolve the matched depth index and its timestamp, pick either the cached
dense map (`depth_color_filled`) or the raw depth image, run
`extract_depth_wrap`, and write the results back at the frame's index;
a scalar-NaN fast-reject result broadcasts over the whole slot.  Returns
`none` when the extractor raises (a failing worker is fatal). -/
def driverStep (cfg : DepthConfig) (inp : DriverIn) (filled : Bool)
    (st : DriverOut) (idx : ℕ) : Option DriverOut :=
  let matchedIdx := (inp.matched_depth_index.getD []).getD idx 0
  let depthTime := inp.depth_time.getD matchedIdx 0
  let colorTime := inp.color_time.getD idx 0
  let kps := inp.keypoints.getD idx []
  let depthImg := if filled then none
    else some (inp.depth_data.getD matchedIdx [])
  let depthInColor := if filled then some (loadImg (st.dense_map.getD idx []))
    else none
  let tm := build_tranformations inp.r_cd inp.t_cd inp.k_d inp.k_c
  match (extract_depth_wrap cfg inp.color_img_shape tm depthImg kps
      depthTime colorTime depthInColor idx).1 with
  | none => none
  | some (ExtractResult.fastReject i) =>
    some { st with
      keypoints3d := st.keypoints3d.set i (nan3Frame inp.numKeypoints)
      keypoints_depth := st.keypoints_depth.set i (nanDFrame inp.numKeypoints)
      dense_map := if filled then st.dense_map
        else st.dense_map.set i (nanOImg (st.dense_map.getD i []))
      extractorCalls := st.extractorCalls + 1 }
  | some (ExtractResult.ok i p3 pd dic) =>
    some { st with
      keypoints3d := st.keypoints3d.set i p3
      keypoints_depth := st.keypoints_depth.set i pd
      dense_map := if filled then st.dense_map
        else match dic with
          | some m => st.dense_map.set i (storeImg m)
          | none => st.dense_map
      extractorCalls := st.extractorCalls + 1 }

/-- `add_stereo_depth(hdf5_in, hdf5_out, cam_root, pose_dset_root, rerun,
transforms)` (source lines 482–597), as a function from the read slices to
the final store state.

* The three output datasets are created zero-filled when absent
  (h5py's default fill value), otherwise reused as they are, and the
  dense map's `complete` attribute decides `depth_color_filled`
  (cleared by `rerun`).
* If the matched-depth-index dataset is absent or empty, all outputs are
  filled with NaN, the dense map is marked complete, and the function
  returns with no per-frame work (source lines 535–541).
* Otherwise every frame index is processed exactly once; the chunking
  into `DATA_PROCESSING_CHUNK_SIZE` slices and the `imap_unordered`
  worker pool write each result at its carried frame index, so the final
  store state is that of the sequential per-frame loop. -/
def add_stereo_depth (cfg : DepthConfig) (inp : DriverIn) (rerun : Bool) :
    Option DriverOut :=
  let keypoints3d := inp.out_keypoints3d.getD
    (List.replicate inp.keypoints.length
      (List.replicate inp.numKeypoints (some 0, some 0, some 0)))
  let keypoints_depth := inp.out_keypoints_depth.getD
    (List.replicate inp.keypoints.length
      (List.replicate inp.numKeypoints (some 0, some 0)))
  let dense_map := inp.dense_map.getD
    (List.replicate inp.numColorFrames
      (List.replicate inp.color_img_shape.1
        (List.replicate inp.color_img_shape.2 (some 0))))
  let depth_color_filled :=
    match inp.dense_map with
    | none => false
    | some _ => inp.dense_complete
  let depth_color_filled := if rerun then false else depth_color_filled
  let noData :=
    match inp.matched_depth_index with
    | none => true
    | some l => decide (l.length = 0)
  if noData then
    some { keypoints3d := keypoints3d.map fun fr => nan3Frame fr.length
           keypoints_depth := keypoints_depth.map fun fr => nanDFrame fr.length
           dense_map := dense_map.map nanOImg
           dense_complete := true
           extractorCalls := 0 }
  else
    let init : DriverOut :=
      { keypoints3d := keypoints3d
        keypoints_depth := keypoints_depth
        dense_map := dense_map
        dense_complete := inp.dense_complete
        extractorCalls := 0 }
    match (List.range inp.numColorFrames).foldlM
        (driverStep cfg inp depth_color_filled) init with
    | none => none
    | some st => some { st with dense_complete := true }

/- Batteries marks the `Rat` field operations `@[irreducible]`, which only
affects elaborator-side transparency, not their meaning; restoring the
default lets `decide` evaluate concrete rational instances through the
kernel. -/
set_option allowUnsafeReducibility true in
attribute [semireducible] Rat.add Rat.mul Rat.div Rat.sub Rat.inv Rat.neg
  Rat.blt Rat.floor

/-- The 3×3 identity matrix, used for concrete instances. -/
def id3 : M3 := ![![1, 0, 0], ![0, 1, 0], ![0, 0, 1]]

lemma getD_map_of_lt {α β : Type} (f : α → β) (l : List α) (i : ℕ)
    (h : i < l.length) (d : β) (d2 : α) :
    (l.map f).getD i d = f (l.getD i d2) := by
  rw [List.getD_eq_getElem?_getD, List.getElem?_map,
    List.getElem?_eq_getElem h, List.getD_eq_getElem?_getD,
    List.getElem?_eq_getElem h]
  rfl

lemma getD_range_map {α : Type} (f : ℕ → α) (n i : ℕ) (h : i < n) (d : α) :
    ((List.range n).map f).getD i d = f i := by
  rw [getD_map_of_lt f _ i (by simpa using h) d 0,
    List.getD_eq_getElem?_getD, List.getElem?_range h]
  rfl

lemma getPix_map_map (f : ℚ → ℚ) (img : Img) (r c : ℕ)
    (hr : r < img.length) (hc : c < (img.getD r []).length) :
    getPix (img.map fun row => row.map f) r c = f (getPix img r c) := by
  unfold getPix
  rw [getD_map_of_lt _ _ _ hr [] [], getD_map_of_lt _ _ _ hc 0 0]

/-- Clamping zeroes every sample strictly outside the valid depth range. -/
lemma clamp_depth_zeroes (cfg : DepthConfig) (img : Img) (r c : ℕ)
    (hr : r < imgRows img) (hc : c < (img.getD r []).length)
    (h : getPix img r c < cfg.minValidDepthMM ∨
      getPix img r c > cfg.maxValidDepthMM) :
    getPix (clamp_depth cfg img) r c = 0 := by
  have hr2 : r < (img.map fun row => row.map fun v =>
      if v < cfg.minValidDepthMM then 0 else v).length := by
    simpa using hr
  have hc2 : c < (((img.map fun row => row.map fun v =>
      if v < cfg.minValidDepthMM then 0 else v)).getD r []).length := by
    rw [getD_map_of_lt _ _ _ hr [] []]
    simpa using hc
  unfold clamp_depth
  rw [getPix_map_map _ _ _ _ hr2 hc2, getPix_map_map _ _ _ _ hr hc]
  rcases h with h | h
  · rw [if_pos h]
    split
    · rfl
    · rfl
  · by_cases h2 : getPix img r c < cfg.minValidDepthMM
    · rw [if_pos h2]
      split
      · rfl
      · rfl
    · rw [if_neg h2, if_pos h]

/-- **C2.**  If the absolute difference between the depth and color
timestamps exceeds the configured maximum time disparity, the per-frame
extractor returns the scalar-NaN tuple immediately: the result is the
constant `fastReject idx` whatever the geometry inputs are (no dense-map
construction, window sampling, deprojection or reprojection can influence
it), and the caller's depth image is returned untouched — in particular it
has not been clamped, which places this branch before the clamping. -/
theorem c2_time_disparity_fast_reject (cfg : DepthConfig)
    (color_img_shape : ℕ × ℕ) (tm : TransformMats) (depth_img : Option Img)
    (keypoints : List (ℚ × ℚ)) (depth_time color_time : ℚ)
    (depth_in_color : Option Img) (idx : ℕ)
    (h : |depth_time - color_time| > cfg.maxTimeDisparity) :
    extract_depth_wrap cfg color_img_shape tm depth_img keypoints depth_time
        color_time depth_in_color idx
      = (some (ExtractResult.fastReject idx), depth_img) := by
  simp [extract_depth_wrap, h]

/-- Witness for `c2_time_disparity_fast_reject` at a concrete input. -/
theorem c2_witness :
    |(10 : ℚ) - 0| > (DepthConfig.mk 100 1000 2 3).maxTimeDisparity ∧
      extract_depth_wrap (DepthConfig.mk 100 1000 2 3) (4, 4)
          (build_tranformations id3 (0, 0, 0) id3 id3)
          (some [[5]]) [(1, 1)] 10 0 none 7
        = (some (ExtractResult.fastReject 7), some [[5]]) :=
  ⟨by norm_num,
   c2_time_disparity_fast_reject (DepthConfig.mk 100 1000 2 3) (4, 4)
     (build_tranformations id3 (0, 0, 0) id3 id3) (some [[5]]) [(1, 1)]
     10 0 none 7 (by norm_num)⟩

/-- **C10.**  When a raw depth image is supplied and the time-disparity
check passes, `extract_depth_wrap` clamps the caller's depth image in
place: after the call the argument array holds `clamp_depth` of the
original (every sample strictly outside the valid range zeroed), whatever
`extract_depth` then does.  On the fast-reject path the argument is left
completely unmodified.  (The second component of the model's result is
the content of the caller's `depth_img` buffer after the call.) -/
theorem c10_in_place_clamp (cfg : DepthConfig) (color_img_shape : ℕ × ℕ)
    (tm : TransformMats) (img : Img) (keypoints : List (ℚ × ℚ))
    (depth_time color_time : ℚ) (depth_in_color : Option Img) (idx : ℕ) :
    (¬ |depth_time - color_time| > cfg.maxTimeDisparity →
      (extract_depth_wrap cfg color_img_shape tm (some img) keypoints
          depth_time color_time depth_in_color idx).2
        = some (clamp_depth cfg img)
      ∧ ∀ r c, r < imgRows img → c < (img.getD r []).length →
          (getPix img r c < cfg.minValidDepthMM ∨
            getPix img r c > cfg.maxValidDepthMM) →
          getPix (clamp_depth cfg img) r c = 0)
    ∧ (|depth_time - color_time| > cfg.maxTimeDisparity →
      (extract_depth_wrap cfg color_img_shape tm (some img) keypoints
          depth_time color_time depth_in_color idx).2 = some img) := by
  constructor
  · intro h
    constructor
    · simp only [extract_depth_wrap, if_neg h, Option.map_some']
      cases hE : extract_depth keypoints (some (clamp_depth cfg img))
          color_img_shape tm cfg.depthKernelSize depth_in_color with
      | none => rfl
      | some v =>
        obtain ⟨a, b, m⟩ := v
        simp
    · intro r c hr hc hv
      exact clamp_depth_zeroes cfg img r c hr hc hv
  · intro h
    simp [extract_depth_wrap, h]

/-- Witness for `c10_in_place_clamp`: on a 2×2 image with samples 50 and
2000 outside the range [100, 1000], the normal path leaves the clamped
image in the caller's buffer (both out-of-range samples zeroed), while a
call with a stale timestamp leaves the buffer untouched. -/
theorem c10_witness :
    (¬ |(0 : ℚ) - 0| > (DepthConfig.mk 100 1000 10 3).maxTimeDisparity) ∧
    |(100 : ℚ) - 0| > (DepthConfig.mk 100 1000 10 3).maxTimeDisparity ∧
    (extract_depth_wrap (DepthConfig.mk 100 1000 10 3) (2, 2)
        (build_tranformations id3 (0, 0, 0) id3 id3)
        (some [[50, 2000], [500, 70]]) [(1, 1)] 0 0 none 3).2
      = some (clamp_depth (DepthConfig.mk 100 1000 10 3)
          [[50, 2000], [500, 70]]) ∧
    getPix (clamp_depth (DepthConfig.mk 100 1000 10 3)
      [[50, 2000], [500, 70]]) 0 1 = 0 ∧
    (extract_depth_wrap (DepthConfig.mk 100 1000 10 3) (2, 2)
        (build_tranformations id3 (0, 0, 0) id3 id3)
        (some [[50, 2000], [500, 70]]) [(1, 1)] 100 0 none 3).2
      = some [[50, 2000], [500, 70]] := by
  refine ⟨by norm_num, by norm_num, ?_, ?_, ?_⟩
  · exact ((c10_in_place_clamp (DepthConfig.mk 100 1000 10 3) (2, 2)
      (build_tranformations id3 (0, 0, 0) id3 id3) [[50, 2000], [500, 70]]
      [(1, 1)] 0 0 none 3).1 (by norm_num)).1
  · exact ((c10_in_place_clamp (DepthConfig.mk 100 1000 10 3) (2, 2)
      (build_tranformations id3 (0, 0, 0) id3 id3) [[50, 2000], [500, 70]]
      [(1, 1)] 0 0 none 3).1 (by norm_num)).2 0 1 (by decide) (by decide)
      (Or.inr (by decide))
  · exact (c10_in_place_clamp (DepthConfig.mk 100 1000 10 3) (2, 2)
      (build_tranformations id3 (0, 0, 0) id3 id3) [[50, 2000], [500, 70]]
      [(1, 1)] 100 0 none 3).2 (by norm_num)

/-- **C6.**  The ordering of the homogeneous pixel grid agrees with the
Fortran-order flattening used by `de_project_depth`: for every flat
position `p`, column `p` of `generate_image_h_indices` is `(x, y, 1)`
for exactly the pixel `(row y, column x)` whose value sits at position
`p` of the image flattened in column-major order, and ray `p` produced by
`de_project_depth` is `k_inv @ (x, y, 1)` scaled by that same pixel's
depth. -/
theorem c6_grid_order_matches_flatten (h w : ℕ) (img : Img) (k_inv : M3)
    (p : ℕ) (himg : img.length = h) (hp : p < w * h) (hh : 0 < h) :
    p / h < w ∧ p % h < h ∧
    (generate_image_h_indices h w).getD p (0, 0, 0)
      = (((p / h : ℕ) : ℚ), ((p % h : ℕ) : ℚ), 1) ∧
    flattenF img p = getPix img (p % h) (p / h) ∧
    (de_project_depth (generate_image_h_indices h w) k_inv img).getD p
        (0, 0, 0)
      = smul3 (getPix img (p % h) (p / h))
          (mulVec3 k_inv (((p / h : ℕ) : ℚ), ((p % h : ℕ) : ℚ), 1)) := by
  have hx : p / h < w := Nat.div_lt_of_lt_mul (by rwa [Nat.mul_comm] at hp)
  have hy : p % h < h := Nat.mod_lt _ hh
  have hflat : flattenF img p = getPix img (p % h) (p / h) := by
    unfold flattenF imgRows
    rw [himg]
  refine ⟨hx, hy, ?_, hflat, ?_⟩
  · unfold generate_image_h_indices
    exact getD_range_map _ _ _ hp _
  · unfold de_project_depth
    have hlen : p < (generate_image_h_indices h w).length := by
      simpa [generate_image_h_indices] using hp
    rw [getD_range_map _ _ _ hlen _]
    unfold generate_image_h_indices
    rw [getD_range_map _ _ _ hp _, hflat]

/-- Witness for `c6_grid_order_matches_flatten` on a 2×3 image at flat
position 3: the grid column is `(1, 1, 1)` and the ray is scaled by
`img[1][1] = 5`. -/
theorem c6_witness :
    ([[1, 2, 3], [4, 5, 6]] : Img).length = 2 ∧ 3 < 3 * 2 ∧ 0 < 2 ∧
    (3 / 2 < 3 ∧ 3 % 2 < 2 ∧
      (generate_image_h_indices 2 3).getD 3 (0, 0, 0)
        = (((3 / 2 : ℕ) : ℚ), ((3 % 2 : ℕ) : ℚ), 1) ∧
      flattenF [[1, 2, 3], [4, 5, 6]] 3
        = getPix [[1, 2, 3], [4, 5, 6]] (3 % 2) (3 / 2) ∧
      (de_project_depth (generate_image_h_indices 2 3) id3
          [[1, 2, 3], [4, 5, 6]]).getD 3 (0, 0, 0)
        = smul3 (getPix [[1, 2, 3], [4, 5, 6]] (3 % 2) (3 / 2))
            (mulVec3 id3 (((3 / 2 : ℕ) : ℚ), ((3 % 2 : ℕ) : ℚ), 1))) :=
  ⟨rfl, by decide, by decide,
   c6_grid_order_matches_flatten 2 3 [[1, 2, 3], [4, 5, 6]] id3 3 rfl
     (by decide) (by decide)⟩

lemma det3_transpose (a : M3) : det3 (transpose3 a) = det3 a := by
  simp only [det3, transpose3]
  ring

lemma inv3_cancel (a : M3) (h : det3 a ≠ 0) (v : V3) :
    mulVec3 (inv3 a) (mulVec3 a v) = v := by
  obtain ⟨x, y, z⟩ := v
  simp only [det3] at h
  simp only [inv3, mulVec3, det3, Matrix.cons_val_zero, Matrix.cons_val_one,
    Matrix.head_cons, Matrix.cons_val_two, Matrix.vecHead, Matrix.vecTail,
    Matrix.tail_cons]
  refine Prod.ext ?_ (Prod.ext ?_ ?_) <;> (field_simp; ring)

/-- **C7.**  For every invertible rotation `r_cd` and translation `t_cd`,
mapping any 3-D point through the homogeneous transform `h_matrix` built
by `build_tranformations` and then through its precomputed
`h_matrix_inv` (rotation block inverted, translation recomputed as
`-R⁻¹ t`) recovers the original point exactly, over exact arithmetic. -/
theorem c7_round_trip (r_cd : M3) (t_cd : V3) (k_d k_c : M3)
    (hdet : det3 r_cd ≠ 0) (p : V3) :
    applyH4 (build_tranformations r_cd t_cd k_d k_c).h_matrix_inv
      (applyH4 (build_tranformations r_cd t_cd k_d k_c).h_matrix p) = p := by
  obtain ⟨x, y, z⟩ := p
  have hdT : det3 (transpose3 r_cd) ≠ 0 := by rwa [det3_transpose]
  have expand : applyH4 (build_tranformations r_cd t_cd k_d k_c).h_matrix_inv
      (applyH4 (build_tranformations r_cd t_cd k_d k_c).h_matrix (x, y, z))
      = mulVec3 (inv3 (transpose3 r_cd))
          (mulVec3 (transpose3 r_cd) (x, y, z)) := by
    simp [build_tranformations, applyH4, mulVec3, transpose3,
      Matrix.vecHead, Matrix.vecTail]
    refine ⟨by ring, by ring, by ring⟩
  rw [expand, inv3_cancel (transpose3 r_cd) hdT (x, y, z)]

/-- Witness for `c7_round_trip`: a shear rotation block and a nonzero
translation round-trip the point `(7, -2, 9)`. -/
theorem c7_witness :
    det3 ![![1, 1, 0], ![0, 1, 0], ![0, 0, 2]] ≠ 0 ∧
    applyH4 (build_tranformations ![![1, 1, 0], ![0, 1, 0], ![0, 0, 2]]
        (3, -4, 5) id3 id3).h_matrix_inv
      (applyH4 (build_tranformations ![![1, 1, 0], ![0, 1, 0], ![0, 0, 2]]
          (3, -4, 5) id3 id3).h_matrix (7, -2, 9)) = (7, -2, 9) :=
  ⟨by norm_num [det3, Matrix.vecHead, Matrix.vecTail],
   c7_round_trip ![![1, 1, 0], ![0, 1, 0], ![0, 0, 2]] (3, -4, 5) id3 id3
     (by norm_num [det3, Matrix.vecHead, Matrix.vecTail]) (7, -2, 9)⟩

/-- **C3 (code bug).**  The docstring of `calc_depth_from_sparse_image`
promises a kernel of size `2*window + 1`, but the slice
`img[y-window : y+window, x-window : x+window]` excludes its upper bounds,
so the code reads only a `2*window × 2*window` block that misses row
`y+window` and column `x+window`.  Concretely: a 5×5 image whose only
nonzero value 7 sits at row 4, column 2 — inside the claimed 5×5
neighborhood of the center pixel `(2, 2)` with half-window 2 — yields
depth 0 (the value is never seen) where the claim requires 7. -/
theorem c3_window_misses_upper_edge :
    calc_depth_from_sparse_image
        [[0, 0, 0, 0, 0], [0, 0, 0, 0, 0], [0, 0, 0, 0, 0],
         [0, 0, 0, 0, 0], [0, 0, 7, 0, 0]] [((2 : ℚ), (2 : ℚ))] 2 = [0]
    ∧ getPix [[0, 0, 0, 0, 0], [0, 0, 0, 0, 0], [0, 0, 0, 0, 0],
        [0, 0, 0, 0, 0], [0, 0, 7, 0, 0]] 4 2 = 7
    ∧ 4 ≤ 2 + 2 ∧ 2 ≤ 2 + 2 :=
  ⟨by decide, by decide, by decide, by decide⟩

/-- The depth image for the cache-equivalence counterexample: all samples
1000 mm except 200 mm at row 5, column 5. -/
def c4Img : Img :=
  [[1000, 1000, 1000, 1000, 1000, 1000],
   [1000, 1000, 1000, 1000, 1000, 1000],
   [1000, 1000, 1000, 1000, 1000, 1000],
   [1000, 1000, 1000, 1000, 1000, 1000],
   [1000, 1000, 1000, 1000, 1000, 1000],
   [1000, 1000, 1000, 1000, 1000, 200]]

/-- The dense depth-in-color map the fresh path computes from `c4Img`
under identity intrinsics and extrinsics (row 0 and column 0 are dropped
by the rasterizer's strict bound). -/
def c4Map : Img :=
  [[0, 0, 0, 0, 0, 0],
   [0, 1000, 1000, 1000, 1000, 1000],
   [0, 1000, 1000, 1000, 1000, 1000],
   [0, 1000, 1000, 1000, 1000, 1000],
   [0, 1000, 1000, 1000, 1000, 1000],
   [0, 1000, 1000, 1000, 1000, 200]]

/-- Identity intrinsics and extrinsics transform bundle. -/
def c4tm : TransformMats := build_tranformations id3 (0, 0, 0) id3 id3

set_option maxRecDepth 10000 in
/-- **C4 (code bug).**  `extract_depth` halves the window
(`window = int((window-1)/2)`) only inside the `mapped_depth_img is None`
branch, so the cached path samples with the full kernel size as its
half-window while the fresh path samples with the halved one.  With the
same keypoint `(3, 3)`, the same transforms, window 3, and the cached map
exactly equal to the freshly computed one (`c4Map`), the fresh path
samples depth 1000 (2×2 block around the keypoint) while the cached path
samples depth 200 (it reaches the corner value), so the two paths return
different 3-D keypoints: `(3000, 3000, 1000)` versus `(600, 600, 200)`. -/
theorem c4_cached_vs_fresh_path :
    extract_depth [((3 : ℚ), (3 : ℚ))] (some c4Img) (6, 6) c4tm 3 none
      = some ([(3000, 3000, 1000)], [(3, 3)], c4Map)
    ∧ extract_depth [((3 : ℚ), (3 : ℚ))] none (6, 6) c4tm 3 (some c4Map)
      = some ([(600, 600, 200)], [(3, 3)], c4Map)
    ∧ ([((3000 : ℚ), (3000 : ℚ), (1000 : ℚ))] : List V3)
        ≠ [((600 : ℚ), (600 : ℚ), (200 : ℚ))] :=
  ⟨by decide, by decide, by decide⟩

lemma calc_depth_length (img : Img) (poses : List (ℚ × ℚ)) (window : ℕ) :
    (calc_depth_from_sparse_image img poses window).length = poses.length := by
  simp [calc_depth_from_sparse_image]

lemma deproject_colordepth_length (k : M3) (poses : List (ℚ × ℚ))
    (depths : List ℚ) :
    (deproject_colordepth k poses depths).length
      = min poses.length depths.length := by
  simp [deproject_colordepth]

lemma project_keypoints2depth_length (kd : M3) (hinv : M4) (l : List V3) :
    (project_keypoints2depth kd hinv l).length = l.length := by
  simp [project_keypoints2depth]

/-- Any successful `extract_depth` call returns one 3-D pose per keypoint
and one depth-frame pose per 3-D pose. -/
lemma extract_depth_shapes (poses : List (ℚ × ℚ)) (dimg : Option Img)
    (shape : ℕ × ℕ) (tm : TransformMats) (window : ℕ) (mapped : Option Img)
    (a : List V3) (b : List (ℚ × ℚ)) (m : Img)
    (h : extract_depth poses dimg shape tm window mapped = some (a, b, m)) :
    a.length = poses.length ∧ b.length = a.length := by
  unfold extract_depth at h
  cases mapped with
  | some m0 =>
    simp only [Option.some.injEq, Prod.mk.injEq] at h
    obtain ⟨rfl, rfl, rfl⟩ := h
    refine ⟨?_, ?_⟩
    · rw [deproject_colordepth_length, calc_depth_length]
      exact Nat.min_self _
    · rw [project_keypoints2depth_length]
  | none =>
    cases dimg with
    | none => simp at h
    | some img0 =>
      simp only at h
      cases hPr : project_depth_to_colorframe
          (transform_depth_world2color_pixels tm.color_cam_matrix
            (de_project_depth
              (generate_image_h_indices (imgRows img0) (imgCols img0))
              tm.k_d_inv img0)) shape with
      | none => rw [hPr] at h; simp at h
      | some mm =>
        rw [hPr] at h
        simp only [Option.some.injEq, Prod.mk.injEq] at h
        obtain ⟨rfl, rfl, rfl⟩ := h
        refine ⟨?_, ?_⟩
        · rw [deproject_colordepth_length, calc_depth_length]
          exact Nat.min_self _
        · rw [project_keypoints2depth_length]

lemma getD_zipWith_of_lt {α β γ : Type} (f : α → β → γ) (l1 : List α)
    (l2 : List β) (i : ℕ) (h1 : i < l1.length) (h2 : i < l2.length)
    (d : γ) (d1 : α) (d2 : β) :
    (List.zipWith f l1 l2).getD i d = f (l1.getD i d1) (l2.getD i d2) := by
  induction l1 generalizing l2 i with
  | nil => simp at h1
  | cons a t ih =>
    cases l2 with
    | nil => simp at h2
    | cons b t2 =>
      cases i with
      | zero => rfl
      | succ n =>
        simp only [List.zipWith_cons_cons, List.getD_cons_succ]
        exact ih t2 n (by simpa using h1) (by simpa using h2)

/-- **C1.**  On the normal (non-fast-reject) path with a supplied raw
depth image: (a) every depth sample strictly outside
`[MIN_VALID_DEPTH_MM, MAX_VALID_DEPTH_MM]` is zeroed by the in-place
clamp, which happens before `extract_depth` computes any geometry (the
wrapper hands `clamp_depth cfg img` to `extract_depth`); and (b) every
keypoint whose recovered 3-D `z` lies strictly outside that range has all
three coordinates NaN in the 3-D output and both coordinates NaN in the
depth-frame output, symmetrically. -/
theorem c1_clamp_and_invalidate (cfg : DepthConfig) (shape : ℕ × ℕ)
    (tm : TransformMats) (img : Img) (keypoints : List (ℚ × ℚ))
    (depth_time color_time : ℚ) (idx : ℕ)
    (ht : ¬ |depth_time - color_time| > cfg.maxTimeDisparity) :
    (∀ r c, r < imgRows img → c < (img.getD r []).length →
      (getPix img r c < cfg.minValidDepthMM ∨
        getPix img r c > cfg.maxValidDepthMM) →
      getPix (clamp_depth cfg img) r c = 0)
    ∧ ∀ raw3 rawd m,
        extract_depth keypoints (some (clamp_depth cfg img)) shape tm
            cfg.depthKernelSize none = some (raw3, rawd, m) →
        (extract_depth_wrap cfg shape tm (some img) keypoints depth_time
            color_time none idx).1
          = some (ExtractResult.ok idx (mask_poses3d cfg raw3)
              (mask_poses_in_depth cfg raw3 rawd) (some m))
        ∧ ∀ k, k < raw3.length →
            ((raw3.getD k (0, 0, 0)).2.2 < cfg.minValidDepthMM ∨
              (raw3.getD k (0, 0, 0)).2.2 > cfg.maxValidDepthMM) →
            (mask_poses3d cfg raw3).getD k (some 0, some 0, some 0)
                = (none, none, none)
            ∧ (mask_poses_in_depth cfg raw3 rawd).getD k (some 0, some 0)
                = (none, none) := by
  constructor
  · intro r c hr hc hv
    exact clamp_depth_zeroes cfg img r c hr hc hv
  · intro raw3 rawd m hE
    have hlen := extract_depth_shapes keypoints (some (clamp_depth cfg img))
      shape tm cfg.depthKernelSize none raw3 rawd m hE
    constructor
    · simp only [extract_depth_wrap, if_neg ht, Option.map_some']
      rw [hE]
      simp
    · intro k hk hz
      have hinv : invalidKeypoint cfg (raw3.getD k (0, 0, 0)) = true := by
        unfold invalidKeypoint
        simp only [Bool.or_eq_true, decide_eq_true_eq]
        exact hz
      constructor
      · unfold mask_poses3d
        rw [getD_map_of_lt _ _ _ hk _ (0, 0, 0), if_pos hinv]
      · unfold mask_poses_in_depth
        rw [getD_zipWith_of_lt _ _ _ _ hk (hlen.2 ▸ hk) _ (0, 0, 0) (0, 0),
          if_pos hinv]

set_option maxRecDepth 10000 in
/-- Witness for `c1_clamp_and_invalidate`: a 2×2 depth image with samples
50 mm and 2000 mm outside [100, 1000] is clamped to zero at both places;
the keypoint's recovered `z` is 0, outside the range, so its 3-D and
depth-frame outputs are NaN. -/
theorem c1_witness :
    (¬ |(0 : ℚ) - 0| > (DepthConfig.mk 100 1000 10 3).maxTimeDisparity) ∧
    getPix (clamp_depth (DepthConfig.mk 100 1000 10 3)
      [[50, 500], [500, 2000]]) 0 0 = 0 ∧
    getPix (clamp_depth (DepthConfig.mk 100 1000 10 3)
      [[50, 500], [500, 2000]]) 1 1 = 0 ∧
    extract_depth [((1 : ℚ), (1 : ℚ))]
        (some (clamp_depth (DepthConfig.mk 100 1000 10 3)
          [[50, 500], [500, 2000]]))
        (2, 2) (build_tranformations id3 (0, 0, 5) id3 id3)
        (DepthConfig.mk 100 1000 10 3).depthKernelSize none
      = some ([(0, 0, 0)], [(0, 0)], [[0, 0], [0, 0]]) ∧
    (extract_depth_wrap (DepthConfig.mk 100 1000 10 3) (2, 2)
        (build_tranformations id3 (0, 0, 5) id3 id3)
        (some [[50, 500], [500, 2000]]) [((1 : ℚ), (1 : ℚ))] 0 0 none 7).1
      = some (ExtractResult.ok 7
          (mask_poses3d (DepthConfig.mk 100 1000 10 3) [(0, 0, 0)])
          (mask_poses_in_depth (DepthConfig.mk 100 1000 10 3) [(0, 0, 0)]
            [(0, 0)])
          (some [[0, 0], [0, 0]])) ∧
    (mask_poses3d (DepthConfig.mk 100 1000 10 3) [(0, 0, 0)]).getD 0
        (some 0, some 0, some 0) = (none, none, none) ∧
    (mask_poses_in_depth (DepthConfig.mk 100 1000 10 3) [(0, 0, 0)]
      [(0, 0)]).getD 0 (some 0, some 0) = (none, none) := by
  refine ⟨by norm_num, ?_, ?_, by decide, ?_, ?_, ?_⟩
  · exact (c1_clamp_and_invalidate (DepthConfig.mk 100 1000 10 3) (2, 2)
      (build_tranformations id3 (0, 0, 5) id3 id3) [[50, 500], [500, 2000]]
      [((1 : ℚ), (1 : ℚ))] 0 0 7 (by norm_num)).1 0 0 (by decide) (by decide)
      (Or.inl (by decide))
  · exact (c1_clamp_and_invalidate (DepthConfig.mk 100 1000 10 3) (2, 2)
      (build_tranformations id3 (0, 0, 5) id3 id3) [[50, 500], [500, 2000]]
      [((1 : ℚ), (1 : ℚ))] 0 0 7 (by norm_num)).1 1 1 (by decide) (by decide)
      (Or.inr (by decide))
  · exact (((c1_clamp_and_invalidate (DepthConfig.mk 100 1000 10 3) (2, 2)
      (build_tranformations id3 (0, 0, 5) id3 id3) [[50, 500], [500, 2000]]
      [((1 : ℚ), (1 : ℚ))] 0 0 7 (by norm_num)).2) [(0, 0, 0)] [(0, 0)]
      [[0, 0], [0, 0]] (by decide)).1
  · exact ((((c1_clamp_and_invalidate (DepthConfig.mk 100 1000 10 3) (2, 2)
      (build_tranformations id3 (0, 0, 5) id3 id3) [[50, 500], [500, 2000]]
      [((1 : ℚ), (1 : ℚ))] 0 0 7 (by norm_num)).2) [(0, 0, 0)] [(0, 0)]
      [[0, 0], [0, 0]] (by decide)).2 0 (by decide) (Or.inl (by decide))).1
  · exact ((((c1_clamp_and_invalidate (DepthConfig.mk 100 1000 10 3) (2, 2)
      (build_tranformations id3 (0, 0, 5) id3 id3) [[50, 500], [500, 2000]]
      [((1 : ℚ), (1 : ℚ))] 0 0 7 (by norm_num)).2) [(0, 0, 0)] [(0, 0)]
      [[0, 0], [0, 0]] (by decide)).2 0 (by decide) (Or.inl (by decide))).2

/-- **C8.**  If the matched-depth-index dataset is absent or has length
zero, the driver fills the entire 3-D keypoint and depth-frame keypoint
datasets with NaN, sets the dense map's `complete` attribute to true, and
returns with zero extractor/worker invocations. -/
theorem c8_early_exit (cfg : DepthConfig) (inp : DriverIn) (rerun : Bool)
    (h : inp.matched_depth_index = none ∨ inp.matched_depth_index = some []) :
    ∃ out, add_stereo_depth cfg inp rerun = some out
      ∧ out.dense_complete = true
      ∧ out.extractorCalls = 0
      ∧ (∀ fr ∈ out.keypoints3d, ∀ kp ∈ fr,
          kp = ((none, none, none) : Option ℚ × Option ℚ × Option ℚ))
      ∧ (∀ fr ∈ out.keypoints_depth, ∀ kp ∈ fr,
          kp = ((none, none) : Option ℚ × Option ℚ))
      ∧ (∀ im ∈ out.dense_map, ∀ row ∈ im, ∀ v ∈ row,
          v = (none : Option ℚ)) := by
  have hnd : (match inp.matched_depth_index with
      | none => true
      | some l => decide (l.length = 0)) = true := by
    rcases h with h | h
    · rw [h]
    · rw [h]
      simp
  have heq : add_stereo_depth cfg inp rerun
      = some { keypoints3d := (inp.out_keypoints3d.getD
                (List.replicate inp.keypoints.length
                  (List.replicate inp.numKeypoints
                    (some 0, some 0, some 0)))).map fun fr =>
                      nan3Frame fr.length
               keypoints_depth := (inp.out_keypoints_depth.getD
                (List.replicate inp.keypoints.length
                  (List.replicate inp.numKeypoints
                    (some 0, some 0)))).map fun fr => nanDFrame fr.length
               dense_map := (inp.dense_map.getD
                (List.replicate inp.numColorFrames
                  (List.replicate inp.color_img_shape.1
                    (List.replicate inp.color_img_shape.2
                      (some 0))))).map nanOImg
               dense_complete := true
               extractorCalls := 0 } := by
    unfold add_stereo_depth
    rw [hnd]
    rfl
  refine ⟨_, heq, rfl, rfl, ?_, ?_, ?_⟩
  · intro fr hfr kp hkp
    rw [List.mem_map] at hfr
    obtain ⟨fr0, _, rfl⟩ := hfr
    exact List.eq_of_mem_replicate hkp
  · intro fr hfr kp hkp
    rw [List.mem_map] at hfr
    obtain ⟨fr0, _, rfl⟩ := hfr
    exact List.eq_of_mem_replicate hkp
  · intro im him row hrow v hv
    rw [List.mem_map] at him
    obtain ⟨im0, _, rfl⟩ := him
    rw [nanOImg, List.mem_map] at hrow
    obtain ⟨r0, _, rfl⟩ := hrow
    rw [List.mem_map] at hv
    obtain ⟨v0, _, rfl⟩ := hv
    rfl

/-- A concrete driver input whose matched-depth-index dataset is absent. -/
def c8Inp : DriverIn :=
  { matched_depth_index := none
    depth_data := []
    depth_time := []
    color_time := []
    numColorFrames := 1
    color_img_shape := (1, 1)
    keypoints := [[((0 : ℚ), (0 : ℚ))]]
    numKeypoints := 1
    r_cd := id3
    t_cd := (0, 0, 0)
    k_d := id3
    k_c := id3
    out_keypoints3d := none
    out_keypoints_depth := none
    dense_map := none
    dense_complete := false }

/-- Witness for `c8_early_exit` at the concrete input `c8Inp`. -/
theorem c8_witness :
    (c8Inp.matched_depth_index = none ∨ c8Inp.matched_depth_index = some []) ∧
    (∃ out, add_stereo_depth (DepthConfig.mk 100 1000 10 3) c8Inp false
        = some out
      ∧ out.dense_complete = true
      ∧ out.extractorCalls = 0
      ∧ (∀ fr ∈ out.keypoints3d, ∀ kp ∈ fr,
          kp = ((none, none, none) : Option ℚ × Option ℚ × Option ℚ))
      ∧ (∀ fr ∈ out.keypoints_depth, ∀ kp ∈ fr,
          kp = ((none, none) : Option ℚ × Option ℚ))
      ∧ (∀ im ∈ out.dense_map, ∀ row ∈ im, ∀ v ∈ row,
          v = (none : Option ℚ))) :=
  ⟨Or.inl rfl,
   c8_early_exit (DepthConfig.mk 100 1000 10 3) c8Inp false (Or.inl rfl)⟩

/-- **C5 counterexample.**  The point `(0, 0, 5)` has nonzero homogeneous
weight and projects to the rounded pixel `(0, 0)`, which lies inside
`[0, 4) × [0, 4)`, so the claim requires its z-value 5 to be written at
pixel `(0, 0)`.  The code's strict bound `points[:, 0] > 0`,
`points[:, 1] > 0` drops it and the pixel stays 0. -/
theorem c5_boundary_pixel_dropped :
    (project_depth_to_colorframe [((0 : ℚ), (0 : ℚ), (5 : ℚ))] (4, 4)).map
        (fun im => getPix im 0 0) = some 0
    ∧ castU16 (roundHalfEven ((0 : ℚ) / 5)) = 0
    ∧ (0 : ℕ) < 4 ∧ ((5 : ℚ) ≠ 0) ∧ (0 : ℚ) ≠ 5 :=
  ⟨by decide, by decide, by decide, by decide, by decide⟩

/-- The rasterizer of the amended C5 claim, as one pass over the points:
round half-to-even, cast to uint16, keep exactly the points whose cast
coordinates lie strictly inside `(0, cols) × (0, rows)`, and write each
kept point's own `z` at its pixel, last write winning; every other pixel
stays 0. -/
def rasterizeDirect (px_color : List V3) (shape : ℕ × ℕ) : Img :=
  px_color.foldl
    (fun im p =>
      if decide (0 < castU16 (roundHalfEven (p.1 / p.2.2))) &&
          decide (0 < castU16 (roundHalfEven (p.2.1 / p.2.2))) &&
          decide (castU16 (roundHalfEven (p.1 / p.2.2)) < shape.2) &&
          decide (castU16 (roundHalfEven (p.2.1 / p.2.2)) < shape.1) then
        setPix im (castU16 (roundHalfEven (p.2.1 / p.2.2)))
          (castU16 (roundHalfEven (p.1 / p.2.2))) p.2.2
      else im)
    (zeroImg shape.1 shape.2)

/-- **C5 (amended).**  Provided every projected point has nonzero
homogeneous weight, the rasterizer raises no error and agrees with the
single-pass `rasterizeDirect`: it keeps exactly the points whose rounded,
uint16-cast coordinates lie strictly inside `(0, shape)` on both axes
(the boundary coordinate 0 is dropped, unlike the claimed `[0, shape)`),
writes each kept point's own z-depth at its pixel with last-write-wins,
and leaves every other pixel 0.  (When some weight is zero the function
instead raises `IndexError`, so the original claim's z-dropping clause
also fails; see `c5_boundary_pixel_dropped` and the C9 analysis.) -/
theorem c5_amended_rasterizer (px : List V3) (shape : ℕ × ℕ)
    (h : ∀ p ∈ px, p.2.2 ≠ 0) :
    project_depth_to_colorframe px shape
      = some (rasterizeDirect px shape) := by
  have hfilter : (px.filter fun p => decide (p.2.2 ≠ 0)) = px :=
    List.filter_eq_self.mpr (fun p hp => by simpa using h p hp)
  simp only [project_depth_to_colorframe, hfilter, List.length_map,
    List.length_zip, if_pos]
  simp only [Option.some.injEq]
  unfold rasterizeDirect
  generalize zeroImg shape.1 shape.2 = acc
  clear hfilter
  revert h
  induction px generalizing acc with
  | nil =>
    intro _
    rfl
  | cons p rest ih =>
    intro h
    simp only [List.map_cons, List.zip_cons_cons, List.filter_cons]
    cases hb : decide (0 < castU16 (roundHalfEven (p.1 / p.2.2))) &&
        decide (0 < castU16 (roundHalfEven (p.2.1 / p.2.2))) &&
        decide (castU16 (roundHalfEven (p.1 / p.2.2)) < shape.2) &&
        decide (castU16 (roundHalfEven (p.2.1 / p.2.2)) < shape.1) with
    | true =>
      simp only [hb, List.map_cons, List.zip_cons_cons, List.foldl_cons,
        eq_self_iff_true, if_true]
      exact ih _ (fun q hq => h q (List.mem_cons_of_mem p hq))
    | false =>
      simp only [hb, List.foldl_cons, Bool.false_eq_true, if_false]
      exact ih _ (fun q hq => h q (List.mem_cons_of_mem p hq))

/-- Witness for `c5_amended_rasterizer`: three points with nonzero weight,
two of which alias to pixel `(row 1, col 3)` — the later value 3 wins —
and one of which is dropped by the strict bound at coordinate 0. -/
theorem c5_witness :
    (∀ p ∈ [((6 : ℚ), (2 : ℚ), (2 : ℚ)), ((9 : ℚ), (3 : ℚ), (3 : ℚ)),
        ((0 : ℚ), (0 : ℚ), (5 : ℚ))], p.2.2 ≠ 0) ∧
    project_depth_to_colorframe
        [((6 : ℚ), (2 : ℚ), (2 : ℚ)), ((9 : ℚ), (3 : ℚ), (3 : ℚ)),
          ((0 : ℚ), (0 : ℚ), (5 : ℚ))] (4, 4)
      = some (rasterizeDirect
          [((6 : ℚ), (2 : ℚ), (2 : ℚ)), ((9 : ℚ), (3 : ℚ), (3 : ℚ)),
            ((0 : ℚ), (0 : ℚ), (5 : ℚ))] (4, 4)) ∧
    getPix (rasterizeDirect
        [((6 : ℚ), (2 : ℚ), (2 : ℚ)), ((9 : ℚ), (3 : ℚ), (3 : ℚ)),
          ((0 : ℚ), (0 : ℚ), (5 : ℚ))] (4, 4)) 1 3 = 3 ∧
    getPix (rasterizeDirect
        [((6 : ℚ), (2 : ℚ), (2 : ℚ)), ((9 : ℚ), (3 : ℚ), (3 : ℚ)),
          ((0 : ℚ), (0 : ℚ), (5 : ℚ))] (4, 4)) 0 0 = 0 :=
  ⟨by decide,
   c5_amended_rasterizer
     [((6 : ℚ), (2 : ℚ), (2 : ℚ)), ((9 : ℚ), (3 : ℚ), (3 : ℚ)),
       ((0 : ℚ), (0 : ℚ), (5 : ℚ))] (4, 4) (by decide),
   by decide, by decide⟩

lemma mask_poses3d_length (cfg : DepthConfig) (l : List V3) :
    (mask_poses3d cfg l).length = l.length := by
  simp [mask_poses3d]

lemma mask_poses_in_depth_length (cfg : DepthConfig) (a : List V3)
    (b : List (ℚ × ℚ)) :
    (mask_poses_in_depth cfg a b).length = min a.length b.length := by
  simp [mask_poses_in_depth]

/-- On the cached path `extract_depth` is total: it never halves the
window and never rasterizes. -/
lemma extract_depth_cached (poses : List (ℚ × ℚ)) (shape : ℕ × ℕ)
    (tm : TransformMats) (window : ℕ) (m : Img) :
    extract_depth poses none shape tm window (some m)
      = some (deproject_colordepth tm.k_c_inv poses
            (calc_depth_from_sparse_image m poses window),
          project_keypoints2depth tm.k_d tm.h_matrix_inv
            (deproject_colordepth tm.k_c_inv poses
              (calc_depth_from_sparse_image m poses window)),
          m) := rfl

/-- **C9 counterexample.**  Two in-contract inputs (exactly one of depth
image / dense map non-null each) on which the claim fails.  First: a 1×1
depth image whose only sample clamps to 0 under identity extrinsics
(translation 0) makes every projected point's homogeneous weight 0, so
the boolean mask `valid` (length 0) is applied to the unfiltered 1-column
`px_color` and numpy raises `IndexError` (modelled by `none`): the
extractor *does* raise.  Second: on the time-disparity fast path the
extractor returns the scalar-NaN tuple `fastReject` (source line 251,
`return (idx, np.NaN, np.NaN, np.NaN)`), not fixed-shape `(25, 3)` and
`(25, 2)` arrays. -/
theorem c9_raise_and_scalar_fast_path :
    (extract_depth_wrap (DepthConfig.mk 100 1000 10 3) (1, 1)
        (build_tranformations id3 (0, 0, 0) id3 id3) (some [[0]])
        [((0 : ℚ), (0 : ℚ))] 0 0 none 7).1 = none
    ∧ (extract_depth_wrap (DepthConfig.mk 100 1000 10 3) (1, 1)
        (build_tranformations id3 (0, 0, 0) id3 id3) (some [[0]])
        [((0 : ℚ), (0 : ℚ))] 100 0 none 7).1
      = some (ExtractResult.fastReject 7) :=
  ⟨by decide, by decide⟩

/-- **C9 (amended).**  On the non-fast path, for contract inputs (exactly
one of depth image / dense map non-null) with 25 keypoints: the cached
path never raises and returns `(25, 3)` and `(25, 2)` outputs; the fresh
path returns `(25, 3)` and `(25, 2)` outputs whenever its rasterization
succeeds (no projected point of zero homogeneous weight — otherwise the
fancy-index mask misaligns and an `IndexError` propagates, see
`c9_raise_and_scalar_fast_path`).  The fast-reject path returns scalar
NaN placeholders rather than arrays; they broadcast to the fixed shape
only when the driver assigns them into the output datasets. -/
theorem c9_fixed_shape_outputs (cfg : DepthConfig) (shape : ℕ × ℕ)
    (tm : TransformMats) (keypoints : List (ℚ × ℚ)) (dt ct : ℚ) (idx : ℕ)
    (m : Img) (hn : keypoints.length = 25)
    (ht : ¬ |dt - ct| > cfg.maxTimeDisparity) :
    (∃ p3 pd,
      (extract_depth_wrap cfg shape tm none keypoints dt ct (some m) idx).1
          = some (ExtractResult.ok idx p3 pd none)
        ∧ p3.length = 25 ∧ pd.length = 25)
    ∧ ∀ img raw3 rawd mm,
        extract_depth keypoints (some (clamp_depth cfg img)) shape tm
            cfg.depthKernelSize none = some (raw3, rawd, mm) →
        ∃ p3 pd,
          (extract_depth_wrap cfg shape tm (some img) keypoints dt ct none
              idx).1
            = some (ExtractResult.ok idx p3 pd (some mm))
          ∧ p3.length = 25 ∧ pd.length = 25 := by
  constructor
  · refine ⟨mask_poses3d cfg (deproject_colordepth tm.k_c_inv keypoints
        (calc_depth_from_sparse_image m keypoints cfg.depthKernelSize)),
      mask_poses_in_depth cfg
        (deproject_colordepth tm.k_c_inv keypoints
          (calc_depth_from_sparse_image m keypoints cfg.depthKernelSize))
        (project_keypoints2depth tm.k_d tm.h_matrix_inv
          (deproject_colordepth tm.k_c_inv keypoints
            (calc_depth_from_sparse_image m keypoints
              cfg.depthKernelSize))), ?_, ?_, ?_⟩
    · simp only [extract_depth_wrap, if_neg ht, Option.map_none']
      rw [extract_depth_cached]
      simp
    · rw [mask_poses3d_length, deproject_colordepth_length,
        calc_depth_length, Nat.min_self, hn]
    · rw [mask_poses_in_depth_length, project_keypoints2depth_length,
        Nat.min_self, deproject_colordepth_length, calc_depth_length,
        Nat.min_self, hn]
  · intro img raw3 rawd mm hE
    have hlen := extract_depth_shapes keypoints
      (some (clamp_depth cfg img)) shape tm cfg.depthKernelSize none
      raw3 rawd mm hE
    refine ⟨mask_poses3d cfg raw3, mask_poses_in_depth cfg raw3 rawd,
      ?_, ?_, ?_⟩
    · simp only [extract_depth_wrap, if_neg ht, Option.map_some']
      rw [hE]
      simp
    · rw [mask_poses3d_length, hlen.1, hn]
    · rw [mask_poses_in_depth_length, hlen.2, Nat.min_self, hlen.1, hn]

set_option maxRecDepth 10000 in
/-- Witness for `c9_fixed_shape_outputs` with 25 keypoints at `(1, 1)`:
both the cached path and a successful fresh path return length-25
outputs. -/
theorem c9_witness :
    (List.replicate 25 ((1 : ℚ), (1 : ℚ))).length = 25 ∧
    (¬ |(0 : ℚ) - 0| > (DepthConfig.mk 100 1000 10 3).maxTimeDisparity) ∧
    (∃ p3 pd,
      (extract_depth_wrap (DepthConfig.mk 100 1000 10 3) (2, 2)
          (build_tranformations id3 (0, 0, 5) id3 id3) none
          (List.replicate 25 ((1 : ℚ), (1 : ℚ))) 0 0
          (some [[0, 0], [0, 205]]) 7).1
        = some (ExtractResult.ok 7 p3 pd none)
      ∧ p3.length = 25 ∧ pd.length = 25) ∧
    (∃ p3 pd,
      (extract_depth_wrap (DepthConfig.mk 100 1000 10 3) (2, 2)
          (build_tranformations id3 (0, 0, 5) id3 id3)
          (some [[200, 200], [200, 200]])
          (List.replicate 25 ((1 : ℚ), (1 : ℚ))) 0 0 none 7).1
        = some (ExtractResult.ok 7 p3 pd (some [[0, 0], [0, 205]]))
      ∧ p3.length = 25 ∧ pd.length = 25) := by
  refine ⟨by decide, by norm_num, ?_, ?_⟩
  · exact (c9_fixed_shape_outputs (DepthConfig.mk 100 1000 10 3) (2, 2)
      (build_tranformations id3 (0, 0, 5) id3 id3)
      (List.replicate 25 ((1 : ℚ), (1 : ℚ))) 0 0 7 [[0, 0], [0, 205]]
      (by decide) (by norm_num)).1
  · exact (c9_fixed_shape_outputs (DepthConfig.mk 100 1000 10 3) (2, 2)
      (build_tranformations id3 (0, 0, 5) id3 id3)
      (List.replicate 25 ((1 : ℚ), (1 : ℚ))) 0 0 7 [[0, 0], [0, 205]]
      (by decide) (by norm_num)).2 [[200, 200], [200, 200]]
      (List.replicate 25 ((205 : ℚ), (205 : ℚ), (205 : ℚ)))
      (List.replicate 25 ((41 / 40 : ℚ), (41 / 40 : ℚ)))
      [[0, 0], [0, 205]] (by decide)
